import Mathlib

/-!
Fast Set buffer (fset-buffer.c): list view, selection and viewport

A shallow embedding of `src/plugins/fset/fset-buffer.c`.  The three globals of
the file (`fset_buffer`, `fset_buffer_selected_line`, and the record list
`fset_options` it reads) form the state.  Every function returns the new state
together with the trace of the calls it makes to the host, in program order.
C `int` values are embedded as unbounded `Int`: all of them are row numbers,
window heights and list sizes.
-/

namespace Fset

/-! ## Data model -/

/-- Record handle `struct t_fset_option *`: the buffer code never looks inside it. -/
structure t_fset_option where
  id : Nat
  deriving DecidableEq, Repr

/-- Pointer to a host buffer, `struct t_gui_buffer *`; `none` is `NULL`. -/
abbrev t_gui_buffer := Option Nat

/-- Host record `line_data`, read through hdata: only the field `y` is used. -/
structure t_gui_line_data where
  y : Int
  deriving DecidableEq, Repr

/-- Host record `line`: the pointer `data` (`none` is `NULL`). -/
structure t_gui_line where
  data : Option t_gui_line_data
  deriving DecidableEq, Repr

/-- Host record `window_scroll`: the pointer `start_line`. -/
structure t_gui_window_scroll where
  start_line : Option t_gui_line
  deriving DecidableEq, Repr

/-- Host record `window`, as far as this file reads it. -/
structure t_gui_window where
  number : Int
  buffer : t_gui_buffer
  scroll : Option t_gui_window_scroll
  win_chat_height : Int
  deriving DecidableEq, Repr

/-- The globals of fset-buffer.c together with the record list of the store. -/
structure State where
  fset_buffer : t_gui_buffer
  fset_buffer_selected_line : Int
  fset_options : List t_fset_option
  deriving DecidableEq, Repr

/-- One call made to the host or to the option store. -/
inductive Event where
  /-- One run of `fset_buffer_display_line (y, option)`: the selection flag
  computed on entry and the line handed to `weechat_printf_y (fset_buffer, y, ...)`,
  `none` when the evaluation returned `NULL` and nothing was printed. -/
  | display_line (buffer : t_gui_buffer) (y : Int) (option : Option t_fset_option)
      (selected_line : Bool) (line : Option String)
  /-- Call `weechat_buffer_clear (buffer)`. -/
  | buffer_clear (buffer : t_gui_buffer)
  /-- Call `weechat_buffer_set (buffer, property, value)`. -/
  | buffer_set (buffer : t_gui_buffer) (property value : String)
  /-- Call `weechat_command (buffer, command)`. -/
  | command (buffer : t_gui_buffer) (command : String)
  /-- Call `weechat_buffer_close (buffer)`. -/
  | buffer_close (buffer : t_gui_buffer)
  /-- Call `weechat_buffer_new (name, input_cb, close_cb)` with its result. -/
  | buffer_new (name : String) (result : t_gui_buffer)
  /-- Call `fset_option_get_options ()`. -/
  | get_options
  /-- Call `fset_option_filter_options (input_data)`. -/
  | filter_options (input_data : String)
  deriving DecidableEq, Repr

/-- External collaborators of the line renderer: the store's field accessor and
observed field widths, the colour configuration, the two templates and the
template evaluator.  None of them is defined in fset-buffer.c. -/
structure Host where
  /-- Lookup `weechat_hashtable_get (fset_option_max_length_field, column)`. -/
  max_length_field : String → Option Int
  /-- Accessor `weechat_hdata_string (fset_hdata_fset_option, option, column)`. -/
  hdata_string : Option t_fset_option → String → String
  /-- Colour `weechat_color (weechat_config_string (fset_config_color_name[i]))`. -/
  color_name : Bool → String
  /-- Colour for the column `type`. -/
  color_type : Bool → String
  /-- Colour for the column `default_value`. -/
  color_default_value : Bool → String
  /-- Colour for the column `value`. -/
  color_value : Bool → String
  /-- Template `weechat_config_string (fset_config_format_option)`. -/
  format_option : String
  /-- Template `fset_config_eval_format_option_current`. -/
  eval_format_option_current : String
  /-- Evaluator `weechat_string_eval_expression (expr, pointers, extra_vars, NULL)`;
  the pointers table holds the single binding `fset_option`, the values of
  `extra_vars` are given as the bytes of their C strings. -/
  string_eval_expression : String → Option t_fset_option → List (String × List Nat) → Option String
  /-- Setting `weechat_config_boolean (fset_config_look_use_keys)`. -/
  look_use_keys : Bool

/-- Return code `WEECHAT_RC_OK` of weechat-plugin.h. -/
def WEECHAT_RC_OK : Int := 0

/-- Name `FSET_BUFFER_NAME` of fset.h. -/
def FSET_BUFFER_NAME : String := "fset"

/-- Table `fset_buffer_columns` with `fset_buffer_columns_default_size`. -/
def fset_buffer_columns : List (String × Int) :=
  [("name", 64), ("type", 8), ("default_value", 16), ("value", 16)]

/-- Initial values of the globals: no pane, selection 0, no records. -/
def State.initial : State :=
  { fset_buffer := none, fset_buffer_selected_line := 0, fset_options := [] }

/-- Call `weechat_arraylist_size (fset_options)`. -/
def arraylist_size (l : List t_fset_option) : Int := (l.length : Int)

/-- Call `weechat_arraylist_get (fset_options, index)`: `NULL` outside the list. -/
def arraylist_get (l : List t_fset_option) (index : Int) : Option t_fset_option :=
  if 0 ≤ index then l.get? index.toNat else none

/-! ## Line renderer -/

/-- Bytes of a C string: the UTF-8 encoding of the text, one number below 256
per `char`. -/
def c_string_bytes (value : String) : List Nat :=
  (value.toList.map (fun c => (String.utf8EncodeChar c).map UInt8.toNat)).flatten

/-- Formatting `snprintf (str_value, 1024, "%-<width>s", value)`: left-justified,
padded with blanks up to `width` bytes, cut to the 1023 bytes that fit the
array. -/
def format_column (width : Int) (value : String) : List Nat :=
  (c_string_bytes value
    ++ List.replicate (width.natAbs - (c_string_bytes value).length) 32).take 1023

/-- Copy `snprintf (str_value, 1024, "%s", value)`: the first 1023 bytes. -/
def format_color (value : String) : List Nat :=
  (c_string_bytes value).take 1023

/-- Contents of `fset_buffer_hashtable_extra_vars` when the line is built
(lines 57-95): the four column values, then the four colours, each as the
bytes of `str_value`. -/
def extra_vars (h : Host) (option : Option t_fset_option) (selected_line : Bool) :
    List (String × List Nat) :=
  fset_buffer_columns.map (fun c =>
      (c.1, format_column ((h.max_length_field c.1).getD c.2) (h.hdata_string option c.1)))
    ++ [("color_name", format_color (h.color_name selected_line)),
        ("color_type", format_color (h.color_type selected_line)),
        ("color_default_value", format_color (h.color_default_value selected_line)),
        ("color_value", format_color (h.color_value selected_line))]

/-- Function `fset_buffer_display_line (y, option)` (lines 46-109). -/
def fset_buffer_display_line (h : Host) (s : State) (y : Int)
    (option : Option t_fset_option) : List Event :=
  let selected_line : Bool := decide (y = s.fset_buffer_selected_line)
  let line := h.string_eval_expression
    (if selected_line then h.eval_format_option_current else h.format_option)
    option (extra_vars h option selected_line)
  [Event.display_line s.fset_buffer y option selected_line line]

/-! ## List state -/

/-- Loop of `fset_buffer_refresh` (lines 136-140), from row `i` on. -/
def refresh_lines (h : Host) (s : State) : Nat → List t_fset_option → List Event
  | _, [] => []
  | i, _ :: rest =>
      fset_buffer_display_line h s (i : Int) (arraylist_get s.fset_options (i : Int))
        ++ refresh_lines h s (i + 1) rest

/-- Function `fset_buffer_refresh (clear)` (lines 115-141). -/
def fset_buffer_refresh (h : Host) (s : State) (clear : Bool) : State × List Event :=
  if s.fset_buffer.isNone then (s, [])
  else
    let num_options := arraylist_size s.fset_options
    let s1 : State :=
      if clear then
        { s with fset_buffer_selected_line := if num_options > 0 then 0 else -1 }
      else s
    let ev1 : List Event := if clear then [Event.buffer_clear s.fset_buffer] else []
    (s1, ev1 ++ [Event.buffer_set s.fset_buffer "title" "Fast Set"]
           ++ refresh_lines h s1 0 s1.fset_options)

/-- Function `fset_buffer_set_current_line (line)` (lines 147-164). -/
def fset_buffer_set_current_line (h : Host) (s : State) (line : Int) : State × List Event :=
  if 0 ≤ line ∧ line < arraylist_size s.fset_options then
    let old_line := s.fset_buffer_selected_line
    let s1 : State := { s with fset_buffer_selected_line := line }
    (s1, fset_buffer_display_line h s1 old_line (arraylist_get s1.fset_options old_line)
           ++ fset_buffer_display_line h s1 s1.fset_buffer_selected_line
                (arraylist_get s1.fset_options s1.fset_buffer_selected_line))
  else (s, [])

/-! ## Viewport synchronizer -/

/-- Function `fset_buffer_get_window_info (window, &start_line_y, &chat_height)`
(lines 170-200); the result is the pair `(start_line_y, chat_height)`. -/
def fset_buffer_get_window_info (window : t_gui_window) : Int × Int :=
  let start_line_y : Int :=
    match window.scroll with
    | none => 0
    | some window_scroll =>
      match window_scroll.start_line with
      | none => 0
      | some start_line =>
        match start_line.data with
        | none => 0
        | some line_data => line_data.y
  (start_line_y, window.win_chat_height)

/-- Text `snprintf (str_command, 256, "/window scroll -window %d %s%d", ...)`. -/
def window_scroll_command (number : Int) (sign : String) (amount : Int) : String :=
  "/window scroll -window " ++ toString number ++ " " ++ sign ++ toString amount

/-- Function `fset_buffer_check_line_outside_window ()` (lines 210-234); `window`
is the result of `weechat_window_search_with_buffer (fset_buffer)`. -/
def fset_buffer_check_line_outside_window (s : State) (window : Option t_gui_window) :
    List Event :=
  match window with
  | none => []
  | some w =>
    let start_line_y := (fset_buffer_get_window_info w).1
    let chat_height := (fset_buffer_get_window_info w).2
    if start_line_y > s.fset_buffer_selected_line
        ∨ start_line_y ≤ s.fset_buffer_selected_line - chat_height then
      [Event.command s.fset_buffer
        (window_scroll_command w.number
          (if start_line_y > s.fset_buffer_selected_line then "-" else "+")
          (if start_line_y > s.fset_buffer_selected_line
            then start_line_y - s.fset_buffer_selected_line
            else s.fset_buffer_selected_line - start_line_y - chat_height + 1))]
    else []

/-- First loop of the scroll callback (lines 260-263):
`while (line < start_line_y) line += chat_height;`, with a bound on the
number of tests of the condition; `none` when the bound is used up. -/
def scrolled_loop_add : Nat → Int → Int → Int → Option Int
  | 0, _, _, _ => none
  | fuel + 1, line, start_line_y, chat_height =>
      if line < start_line_y then
        scrolled_loop_add fuel (line + chat_height) start_line_y chat_height
      else some line

/-- Second loop of the scroll callback (lines 264-267):
`while (line >= start_line_y + chat_height) line -= chat_height;`. -/
def scrolled_loop_sub : Nat → Int → Int → Int → Option Int
  | 0, _, _, _ => none
  | fuel + 1, line, start_line_y, chat_height =>
      if line ≥ start_line_y + chat_height then
        scrolled_loop_sub fuel (line - chat_height) start_line_y chat_height
      else some line

/-- Both loops in sequence (lines 259-267), starting from the selection. -/
def scrolled_page_walk (fuel : Nat) (selected_line start_line_y chat_height : Int) :
    Option Int :=
  match scrolled_loop_add fuel selected_line start_line_y chat_height with
  | none => none
  | some line => scrolled_loop_sub fuel line start_line_y chat_height

/-- Lines 268-272 of the scroll callback: the two final adjustments. -/
def scrolled_clamp (line start_line_y num_options : Int) : Int :=
  let line1 := if line < start_line_y then start_line_y else line
  if line1 ≥ num_options then num_options - 1 else line1

/-- Function `fset_buffer_window_scrolled_cb` (lines 240-276); `signal_data` is
the scrolled window.  The result is `none` when a loop does not end within
`fuel` tests. -/
def fset_buffer_window_scrolled_cb (h : Host) (fuel : Nat) (s : State)
    (signal_data : t_gui_window) : Option (Int × State × List Event) :=
  if signal_data.buffer ≠ s.fset_buffer then some (WEECHAT_RC_OK, s, [])
  else
    let start_line_y := (fset_buffer_get_window_info signal_data).1
    let chat_height := (fset_buffer_get_window_info signal_data).2
    match scrolled_page_walk fuel s.fset_buffer_selected_line start_line_y chat_height with
    | none => none
    | some line =>
      let r := fset_buffer_set_current_line h s
        (scrolled_clamp line start_line_y (arraylist_size s.fset_options))
      some (WEECHAT_RC_OK, r.1, r.2)

/-! ## Lifecycle and input -/

/-- Function `fset_buffer_close_cb` (lines 339-353). -/
def fset_buffer_close_cb (s : State) : Int × State × List Event :=
  (WEECHAT_RC_OK,
   { s with fset_buffer := none, fset_buffer_selected_line := 0, fset_options := [] },
   [])

/-- Table `keys` of `fset_buffer_set_keys`. -/
def keys : List (String × String) :=
  [("meta-t", "toggle"), ("meta-+", "increase"), ("meta--", "decrease"),
   ("meta-r", "reset"), ("meta-u", "unset"), ("meta-s", "set"), ("meta-a", "append")]

/-- Function `fset_buffer_set_keys ()` (lines 378-408). -/
def fset_buffer_set_keys (h : Host) (s : State) : List Event :=
  [Event.buffer_set s.fset_buffer "key_bind_meta2-A" "/fset -up",
   Event.buffer_set s.fset_buffer "key_bind_meta2-B" "/fset -down"]
  ++ keys.map (fun k =>
      if h.look_use_keys then
        Event.buffer_set s.fset_buffer ("key_bind_" ++ k.1) ("/fset -" ++ k.2)
      else
        Event.buffer_set s.fset_buffer ("key_unbind_" ++ k.1) "")

/-- Function `fset_buffer_open ()` (lines 414-435); `created` is the result of
`weechat_buffer_new`. -/
def fset_buffer_open (h : Host) (s : State) (created : t_gui_buffer) : State × List Event :=
  if s.fset_buffer.isNone then
    let s1 : State := { s with fset_buffer := created }
    if s1.fset_buffer.isNone then (s1, [Event.buffer_new FSET_BUFFER_NAME created])
    else
      ({ s1 with fset_buffer_selected_line := 0 },
       [Event.buffer_new FSET_BUFFER_NAME created,
        Event.buffer_set s1.fset_buffer "type" "free",
        Event.buffer_set s1.fset_buffer "title" "Options"]
       ++ fset_buffer_set_keys h s1
       ++ [Event.buffer_set s1.fset_buffer "localvar_set_type" "option"])
  else (s, [])

/-- Table `actions` of `fset_buffer_input_cb`. -/
def actions : List (String × String) :=
  [("t", "toggle"), ("+", "increase"), ("-", "decrease"), ("r", "reset"),
   ("u", "unset"), ("s", "set"), ("a", "append")]

/-- Loop of `fset_buffer_input_cb` (lines 318-327): the action of the first row
of the table whose key equals the input. -/
def find_action : List (String × String) → String → Option String
  | [], _ => none
  | (key, action) :: rest, input_data =>
      if input_data = key then some action else find_action rest input_data

/-- Function `fset_buffer_input_cb (buffer, input_data)` (lines 282-333).
`weechat_buffer_close` makes the host run the close callback of the pane before
it returns; `reloaded` is the record list that `fset_option_get_options` leaves in
`fset_options`.  What `fset_option_filter_options` does inside the store is not
part of this file: the call is recorded in the trace. -/
def fset_buffer_input_cb (h : Host) (s : State) (buffer : t_gui_buffer)
    (input_data : String) (reloaded : List t_fset_option) : Int × State × List Event :=
  if input_data = "q" then
    (WEECHAT_RC_OK, (fset_buffer_close_cb s).2.1, [Event.buffer_close buffer])
  else if input_data = "$" then
    let r := fset_buffer_refresh h { s with fset_options := reloaded } true
    (WEECHAT_RC_OK, r.1, Event.get_options :: r.2)
  else
    match find_action actions input_data with
    | some action => (WEECHAT_RC_OK, s, [Event.command buffer ("/fset " ++ action)])
    | none => (WEECHAT_RC_OK, s, [Event.filter_options input_data])

/-! ## Reachable states -/

/-- One operation of the controller.  With `free = false` the record list changes
only through the reload of the input `$` (which runs the refresh with clear) and
through the close notification; with `free = true` the store may in addition
replace the record list between two operations.  Input is delivered by the host
for the pane, so the pane exists when the input callback runs. -/
inductive Step (h : Host) (free : Bool) : State → State → Prop where
  | pane_open (s : State) (created : t_gui_buffer) :
      Step h free s (fset_buffer_open h s created).1
  | pane_close (s : State) :
      Step h free s (fset_buffer_close_cb s).2.1
  | refresh (s : State) (clear : Bool) :
      Step h free s (fset_buffer_refresh h s clear).1
  | set_current_line (s : State) (line : Int) :
      Step h free s (fset_buffer_set_current_line h s line).1
  | window_scrolled (s : State) (signal_data : t_gui_window) (fuel : Nat)
      (r : Int × State × List Event) :
      fset_buffer_window_scrolled_cb h fuel s signal_data = some r →
      Step h free s r.2.1
  | input (s : State) (input_data : String) (reloaded : List t_fset_option) :
      s.fset_buffer.isSome = true →
      Step h free s (fset_buffer_input_cb h s s.fset_buffer input_data reloaded).2.1
  | replaced (s : State) (records : List t_fset_option) :
      free = true →
      Step h free s { s with fset_options := records }

/-- States reached from the initial state by finitely many operations. -/
inductive Reachable (h : Host) (free : Bool) : State → Prop where
  | initial : Reachable h free State.initial
  | step (s t : State) : Reachable h free s → Step h free s t → Reachable h free t

/-- Invariant of the list state as the data model words it:
`-1 <= selected_index < len(records)`, and `selected_index == -1` iff the list
is empty. -/
def selection_invariant (s : State) : Prop :=
  (-1 ≤ s.fset_buffer_selected_line
    ∧ s.fset_buffer_selected_line < arraylist_size s.fset_options)
  ∧ (s.fset_buffer_selected_line = -1 ↔ s.fset_options = [])

instance (s : State) : Decidable (selection_invariant s) := by
  unfold selection_invariant
  infer_instance

/-- Invariant that the operations of this file keep: the selection is an index
of the record list, or the list is empty and the selection is 0 (the value set
by open and close) or -1 (the value set by a refresh with clear). -/
def selection_in_list_or_reset (s : State) : Prop :=
  (s.fset_options = []
    ∧ (s.fset_buffer_selected_line = 0 ∨ s.fset_buffer_selected_line = -1))
  ∨ (0 ≤ s.fset_buffer_selected_line
    ∧ s.fset_buffer_selected_line < arraylist_size s.fset_options)

instance (s : State) : Decidable (selection_in_list_or_reset s) := by
  unfold selection_in_list_or_reset
  infer_instance

/-- Selection within `[start_row, min (start_row + visible_rows, len) - 1]`. -/
def in_viewport_and_list (start_row visible_rows len selected_index : Int) : Prop :=
  start_row ≤ selected_index ∧ selected_index ≤ min (start_row + visible_rows) len - 1

instance (a b c d : Int) : Decidable (in_viewport_and_list a b c d) := by
  unfold in_viewport_and_list
  infer_instance

/-- Rows of the runs of the line renderer in a trace, in order. -/
def rendered_rows : List Event → List Int
  | [] => []
  | Event.display_line _ y _ _ _ :: rest => y :: rendered_rows rest
  | _ :: rest => rendered_rows rest

/-- Selection flags of the runs of the line renderer in a trace, in order. -/
def rendered_flags : List Event → List Bool
  | [] => []
  | Event.display_line _ _ _ selected_line _ :: rest => selected_line :: rendered_flags rest
  | _ :: rest => rendered_flags rest

/-- Commands given to `weechat_command` in a trace, in order. -/
def issued_commands : List Event → List String
  | [] => []
  | Event.command _ c :: rest => c :: issued_commands rest
  | _ :: rest => issued_commands rest

/-! ## Concrete values used in the examples -/

/-- A host whose evaluator prints the template followed by the record number. -/
def example_host : Host :=
  { max_length_field := fun _ => none
    hdata_string := fun o c => match o with
      | none => ""
      | some r => c ++ toString r.id
    color_name := fun b => if b then "white" else "default"
    color_type := fun b => if b then "white" else "default"
    color_default_value := fun b => if b then "white" else "default"
    color_value := fun b => if b then "white" else "default"
    format_option := "n"
    eval_format_option_current := "s"
    string_eval_expression := fun t o _ => match o with
      | none => none
      | some r => some (t ++ toString r.id)
    look_use_keys := true }

/-- The record list with handles `0 .. n-1`. -/
def example_records (n : Nat) : List t_fset_option :=
  (List.range n).map (fun i => { id := i })

/-- Window number 1 showing pane 7 from row `start_row`, `visible_rows` high. -/
def example_window (start_row visible_rows : Int) : t_gui_window :=
  { number := 1, buffer := some 7,
    scroll := some { start_line := some { data := some { y := start_row } } },
    win_chat_height := visible_rows }

/-- State with pane 7 open, the given selection and `n` records. -/
def example_state (selected_index : Int) (n : Nat) : State :=
  { fset_buffer := some 7, fset_buffer_selected_line := selected_index,
    fset_options := example_records n }

/-! ## The page walk of the scroll callback -/

theorem scrolled_loop_add_spec (start_line_y chat_height : Int) (hh : 1 ≤ chat_height) :
    ∀ (n : Nat) (line : Int), start_line_y - line ≤ n →
      ∃ l, scrolled_loop_add (n + 1) line start_line_y chat_height = some l
        ∧ start_line_y ≤ l
        ∧ (line < start_line_y → l < start_line_y + chat_height)
        ∧ (start_line_y ≤ line → l = line)
        ∧ chat_height ∣ (l - line) := by
  intro n
  induction n with
  | zero =>
    intro line hle
    have hge : ¬ line < start_line_y := by
      have : start_line_y - line ≤ 0 := by simpa using hle
      omega
    refine ⟨line, ?_, by omega, fun hlt => absurd hlt hge, fun _ => rfl, by simp⟩
    simp [scrolled_loop_add, hge]
  | succ n ih =>
    intro line hle
    by_cases hlt : line < start_line_y
    · have hle2 : start_line_y - (line + chat_height) ≤ (n : Int) := by
        push_cast at hle
        omega
      obtain ⟨l, hl, h1, h2, h3, h4⟩ := ih (line + chat_height) hle2
      refine ⟨l, ?_, h1, ?_, fun hge => by omega, ?_⟩
      · rw [scrolled_loop_add]
        simp [hlt, hl]
      · intro _
        by_cases hc : line + chat_height < start_line_y
        · exact h2 hc
        · have := h3 (by omega)
          omega
      · have : l - line = (l - (line + chat_height)) + chat_height := by ring
        rw [this]
        exact dvd_add h4 (dvd_refl _)
    · refine ⟨line, ?_, by omega, fun h => absurd h hlt, fun _ => rfl, by simp⟩
      rw [scrolled_loop_add]
      simp [hlt]

theorem scrolled_loop_sub_spec (start_line_y chat_height : Int) (hh : 1 ≤ chat_height) :
    ∀ (n : Nat) (line : Int), line - start_line_y - chat_height < n →
      ∃ l, scrolled_loop_sub (n + 1) line start_line_y chat_height = some l
        ∧ l < start_line_y + chat_height
        ∧ (start_line_y ≤ line → start_line_y ≤ l)
        ∧ chat_height ∣ (l - line) := by
  intro n
  induction n with
  | zero =>
    intro line hlt
    have hlt2 : ¬ line ≥ start_line_y + chat_height := by
      have : line - start_line_y - chat_height < 0 := by simpa using hlt
      omega
    refine ⟨line, ?_, by omega, fun h => h, by simp⟩
    simp [scrolled_loop_sub, hlt2]
  | succ n ih =>
    intro line hlt
    by_cases hge : line ≥ start_line_y + chat_height
    · have hlt2 : (line - chat_height) - start_line_y - chat_height < (n : Int) := by
        push_cast at hlt
        omega
      obtain ⟨l, hl, h1, h2, h3⟩ := ih (line - chat_height) hlt2
      refine ⟨l, ?_, h1, fun _ => h2 (by omega), ?_⟩
      · rw [scrolled_loop_sub]
        simp only [hge, if_true, hl]
      · have : l - line = (l - (line - chat_height)) - chat_height := by ring
        rw [this]
        exact dvd_sub h3 (dvd_refl _)
    · refine ⟨line, ?_, by omega, fun h => h, by simp⟩
      rw [scrolled_loop_sub]
      simp only [hge, if_false]

theorem scrolled_page_walk_spec (selected_line start_line_y chat_height : Int)
    (hh : 1 ≤ chat_height) (fuel : Nat)
    (hfuel : (start_line_y - selected_line).toNat + (selected_line - start_line_y).toNat + 1
      ≤ fuel) :
    ∃ l, scrolled_page_walk fuel selected_line start_line_y chat_height = some l
      ∧ start_line_y ≤ l ∧ l < start_line_y + chat_height
      ∧ chat_height ∣ (l - selected_line) := by
  obtain ⟨n, rfl⟩ : ∃ n, fuel = n + 1 := ⟨fuel - 1, by omega⟩
  obtain ⟨l1, hl1, ha, hb, hc, hd⟩ :=
    scrolled_loop_add_spec start_line_y chat_height hh n selected_line (by omega)
  have hn : l1 - start_line_y - chat_height < (n : Int) := by
    by_cases hlt : selected_line < start_line_y
    · have := hb hlt
      omega
    · have := hc (by omega)
      omega
  obtain ⟨l2, hl2, he, hf, hg⟩ :=
    scrolled_loop_sub_spec start_line_y chat_height hh n l1 hn
  refine ⟨l2, ?_, hf ha, he, ?_⟩
  · simp [scrolled_page_walk, hl1, hl2]
  · have : l2 - selected_line = (l2 - l1) + (l1 - selected_line) := by ring
    rw [this]
    exact dvd_add hg hd

theorem scrolled_loop_add_stuck (start_line_y : Int) :
    ∀ (fuel : Nat) (line : Int), line < start_line_y →
      scrolled_loop_add fuel line start_line_y 0 = none := by
  intro fuel
  induction fuel with
  | zero => intro line _; rfl
  | succ n ih =>
    intro line hlt
    rw [scrolled_loop_add]
    simp only [hlt, if_true, add_zero]
    exact ih line hlt

theorem page_candidate_unique (start_line_y chat_height selected_line r r' : Int)
    (h1 : start_line_y ≤ r) (h2 : r < start_line_y + chat_height)
    (h3 : chat_height ∣ (r - selected_line))
    (h1' : start_line_y ≤ r') (h2' : r' < start_line_y + chat_height)
    (h3' : chat_height ∣ (r' - selected_line)) : r' = r := by
  have hd : chat_height ∣ (r' - r) := by
    have : r' - r = (r' - selected_line) - (r - selected_line) := by ring
    rw [this]
    exact dvd_sub h3' h3
  have habs : |r' - r| < chat_height := by
    rw [abs_lt]
    constructor <;> omega
  have := Int.eq_zero_of_abs_lt_dvd hd habs
  omega

/-! ## Selection movement -/

theorem set_current_line_accepted (h : Host) (s : State) (line : Int)
    (h0 : 0 ≤ line) (h1 : line < arraylist_size s.fset_options) :
    fset_buffer_set_current_line h s line =
      ({ s with fset_buffer_selected_line := line },
       fset_buffer_display_line h { s with fset_buffer_selected_line := line }
           s.fset_buffer_selected_line
           (arraylist_get s.fset_options s.fset_buffer_selected_line)
         ++ fset_buffer_display_line h { s with fset_buffer_selected_line := line } line
           (arraylist_get s.fset_options line)) := by
  simp [fset_buffer_set_current_line, h0, h1]

theorem set_current_line_rejected (h : Host) (s : State) (line : Int)
    (hout : line < 0 ∨ arraylist_size s.fset_options ≤ line) :
    fset_buffer_set_current_line h s line = (s, []) := by
  have : ¬ (0 ≤ line ∧ line < arraylist_size s.fset_options) := by omega
  simp [fset_buffer_set_current_line, this]

/-! ## The scroll callback -/

theorem window_scrolled_result (h : Host) (s : State) (w : t_gui_window)
    (start_row visible_rows : Int)
    (hw : w.buffer = s.fset_buffer)
    (hinfo : fset_buffer_get_window_info w = (start_row, visible_rows))
    (hh : 1 ≤ visible_rows) :
    ∃ r : Int, start_row ≤ r ∧ r < start_row + visible_rows
      ∧ visible_rows ∣ (r - s.fset_buffer_selected_line)
      ∧ ∀ fuel : Nat,
          (start_row - s.fset_buffer_selected_line).toNat
            + (s.fset_buffer_selected_line - start_row).toNat + 1 ≤ fuel →
          fset_buffer_window_scrolled_cb h fuel s w =
            some (WEECHAT_RC_OK,
              (fset_buffer_set_current_line h s
                (scrolled_clamp r start_row (arraylist_size s.fset_options))).1,
              (fset_buffer_set_current_line h s
                (scrolled_clamp r start_row (arraylist_size s.fset_options))).2) := by
  obtain ⟨r, _, hr1, hr2, hr3⟩ :=
    scrolled_page_walk_spec s.fset_buffer_selected_line start_row visible_rows hh _ le_rfl
  refine ⟨r, hr1, hr2, hr3, ?_⟩
  intro fuel hfuel
  obtain ⟨l, hl, hl1, hl2, hl3⟩ :=
    scrolled_page_walk_spec s.fset_buffer_selected_line start_row visible_rows hh fuel hfuel
  have hlr : l = r :=
    page_candidate_unique start_row visible_rows s.fset_buffer_selected_line r l
      hr1 hr2 hr3 hl1 hl2 hl3
  subst hlr
  simp [fset_buffer_window_scrolled_cb, hw, hinfo, hl]

/-- C10: the page walk of the scroll callback (add the height while the
candidate is below the first visible row, then subtract it while the candidate
is at or beyond the end of the window) ends for every selection and first row
when the height is at least 1, with a candidate in
`[start_row, start_row + visible_rows)`; with height 0 and a selection
below the first row the candidate never changes, and neither the first loop,
nor the walk, nor the callback for the window of the pane returns, whatever
the bound. -/
theorem page_walk_terminates_iff_height_positive :
    (∀ selected_index start_row visible_rows : Int, 1 ≤ visible_rows →
      ∃ N : Nat, ∀ fuel : Nat, N ≤ fuel →
        ∃ l, scrolled_page_walk fuel selected_index start_row visible_rows = some l
          ∧ start_row ≤ l ∧ l < start_row + visible_rows)
    ∧ (∀ selected_index start_row : Int, selected_index < start_row →
        ∀ fuel : Nat,
          scrolled_loop_add fuel selected_index start_row 0 = none
          ∧ scrolled_page_walk fuel selected_index start_row 0 = none)
    ∧ (∀ (h : Host) (s : State) (w : t_gui_window) (start_row : Int),
        w.buffer = s.fset_buffer →
        fset_buffer_get_window_info w = (start_row, 0) →
        s.fset_buffer_selected_line < start_row →
        ∀ fuel : Nat, fset_buffer_window_scrolled_cb h fuel s w = none) := by
  refine ⟨?_, ?_, ?_⟩
  · intro sel start height hh
    refine ⟨(start - sel).toNat + (sel - start).toNat + 1, ?_⟩
    intro fuel hfuel
    obtain ⟨l, hl, h1, h2, _⟩ := scrolled_page_walk_spec sel start height hh fuel hfuel
    exact ⟨l, hl, h1, h2⟩
  · intro sel start hlt fuel
    have hstuck := scrolled_loop_add_stuck start fuel sel hlt
    exact ⟨hstuck, by simp [scrolled_page_walk, hstuck]⟩
  · intro h s w start hw hinfo hlt fuel
    have hstuck := scrolled_loop_add_stuck start fuel s.fset_buffer_selected_line hlt
    simp [fset_buffer_window_scrolled_cb, hw, hinfo, scrolled_page_walk, hstuck]

/-- C10 at concrete inputs: selection 23, first row 30, height 10 ends within
the window; selection 2, first row 5, height 0 never ends. -/
theorem page_walk_terminates_iff_height_positive_witness :
    (∃ N : Nat, ∀ fuel : Nat, N ≤ fuel →
        ∃ l, scrolled_page_walk fuel 23 30 10 = some l ∧ (30 : Int) ≤ l ∧ l < 30 + 10)
    ∧ (∀ fuel : Nat, scrolled_loop_add fuel 2 5 0 = none
        ∧ scrolled_page_walk fuel 2 5 0 = none)
    ∧ (∀ fuel : Nat,
        fset_buffer_window_scrolled_cb example_host fuel (example_state 2 30)
          (example_window 5 0) = none) :=
  ⟨page_walk_terminates_iff_height_positive.1 23 30 10 (by decide),
   page_walk_terminates_iff_height_positive.2.1 2 5 (by decide),
   page_walk_terminates_iff_height_positive.2.2 example_host (example_state 2 30)
     (example_window 5 0) 5 rfl rfl (by decide)⟩

/-- C3 as stated fails.  Right after open (pane 7, selection 0, no records) a
scroll of the window of the pane at rows 0-9 has the candidate row 0, which is
beyond the empty list; the code clamps it to -1, `set_current_line` rejects it
and the selection stays 0, not `len(records) - 1 = -1`.  And for a window whose
first row is -5 with height 3 over 5 records, the candidate -3 needs no
clamping but is no index of the list: it is rejected and the selection stays 0,
outside `[-5, -2)`. -/
theorem window_scrolled_keeps_page_offset_counterexample :
    (Reachable example_host false (example_state 0 0)
      ∧ (example_window 0 10).buffer = (example_state 0 0).fset_buffer
      ∧ fset_buffer_get_window_info (example_window 0 10) = (0, 10)
      ∧ ((0 : Int) ≤ 0 ∧ (0 : Int) < 0 + 10
          ∧ (10 : Int) ∣ (0 - (example_state 0 0).fset_buffer_selected_line))
      ∧ arraylist_size (example_state 0 0).fset_options ≤ 0
      ∧ (fset_buffer_window_scrolled_cb example_host 3 (example_state 0 0)
          (example_window 0 10)).map (fun r => r.2.1.fset_buffer_selected_line) = some 0
      ∧ (0 : Int) ≠ arraylist_size (example_state 0 0).fset_options - 1)
    ∧ ((example_window (-5) 3).buffer = (example_state 0 5).fset_buffer
      ∧ fset_buffer_get_window_info (example_window (-5) 3) = (-5, 3)
      ∧ ((-5 : Int) ≤ -3 ∧ (-3 : Int) < -5 + 3
          ∧ (3 : Int) ∣ (-3 - (example_state 0 5).fset_buffer_selected_line))
      ∧ scrolled_clamp (-3) (-5) (arraylist_size (example_state 0 5).fset_options) = -3
      ∧ (fset_buffer_window_scrolled_cb example_host 3 (example_state 0 5)
          (example_window (-5) 3)).map (fun r => r.2.1.fset_buffer_selected_line) = some 0
      ∧ (0 : Int) ≠ -3) := by
  refine ⟨⟨?_, by decide⟩, by decide⟩
  have h1 : Reachable example_host false
      (fset_buffer_open example_host State.initial (some 7)).1 :=
    Reachable.step _ _ Reachable.initial (Step.pane_open _ _)
  have he : (fset_buffer_open example_host State.initial (some 7)).1 = example_state 0 0 := by
    decide
  rw [he] at h1
  exact h1

/-- C3 amended: when the scrolled window shows the pane and its height is at
least 1, there is exactly one row `r` in `[start_row, start_row + visible_rows)`
that differs from the prior selection by a whole multiple of the height; with
enough iterations allowed the callback returns, and the selection it leaves is
`r` when `r` is an index of the record list (`0 <= r < len(records)`, no
clamping), and `len(records) - 1` when `r` is at or beyond the end of a
non-empty list; when the list is empty or `r` is negative the candidate is
rejected, the state is unchanged and no row is rendered. -/
theorem window_scrolled_keeps_page_offset (h : Host) (s : State) (w : t_gui_window)
    (start_row visible_rows : Int)
    (hw : w.buffer = s.fset_buffer)
    (hinfo : fset_buffer_get_window_info w = (start_row, visible_rows))
    (hh : 1 ≤ visible_rows) :
    ∃ r : Int,
      (start_row ≤ r ∧ r < start_row + visible_rows
        ∧ visible_rows ∣ (r - s.fset_buffer_selected_line))
      ∧ (∀ r' : Int, start_row ≤ r' → r' < start_row + visible_rows →
          visible_rows ∣ (r' - s.fset_buffer_selected_line) → r' = r)
      ∧ ∃ (s' : State) (ev : List Event) (N : Nat),
          (∀ fuel : Nat, N ≤ fuel →
            fset_buffer_window_scrolled_cb h fuel s w = some (WEECHAT_RC_OK, s', ev))
          ∧ s'.fset_buffer = s.fset_buffer ∧ s'.fset_options = s.fset_options
          ∧ (0 ≤ r → r < arraylist_size s.fset_options →
              s'.fset_buffer_selected_line = r)
          ∧ (arraylist_size s.fset_options ≤ r → s.fset_options ≠ [] →
              s'.fset_buffer_selected_line = arraylist_size s.fset_options - 1)
          ∧ ((r < 0 ∨ s.fset_options = []) → s' = s ∧ ev = []) := by
  obtain ⟨r, hr1, hr2, hr3, hcb⟩ := window_scrolled_result h s w start_row visible_rows hw hinfo hh
  refine ⟨r, ⟨hr1, hr2, hr3⟩, ?_, _, _, _, hcb, ?_, ?_, ?_, ?_, ?_⟩
  · intro r' h1 h2 h3
    exact page_candidate_unique start_row visible_rows s.fset_buffer_selected_line r r'
      hr1 hr2 hr3 h1 h2 h3
  · unfold fset_buffer_set_current_line
    split <;> rfl
  · unfold fset_buffer_set_current_line
    split <;> rfl
  · intro h0 hlen
    have hc : scrolled_clamp r start_row (arraylist_size s.fset_options) = r := by
      have h1 : ¬ r < start_row := by omega
      have h2 : ¬ r ≥ arraylist_size s.fset_options := by omega
      simp [scrolled_clamp, h1, h2]
    rw [hc, set_current_line_accepted h s r h0 hlen]
  · intro hlen hne
    have hc : scrolled_clamp r start_row (arraylist_size s.fset_options)
        = arraylist_size s.fset_options - 1 := by
      have h1 : ¬ r < start_row := by omega
      simp [scrolled_clamp, h1, hlen]
    have hpos : 0 < arraylist_size s.fset_options := by
      have := List.length_pos.mpr hne
      simp only [arraylist_size]
      exact_mod_cast this
    rw [hc, set_current_line_accepted h s _ (by omega) (by omega)]
  · intro hrej
    have hlen0 : 0 ≤ arraylist_size s.fset_options := by
      simp [arraylist_size]
    have hc : scrolled_clamp r start_row (arraylist_size s.fset_options) < 0 := by
      have h1 : ¬ r < start_row := by omega
      simp only [scrolled_clamp, h1, if_false]
      rcases hrej with hneg | hnil
      · have h2 : ¬ r ≥ arraylist_size s.fset_options := by omega
        simp only [h2, if_false]
        exact hneg
      · have hz : arraylist_size s.fset_options = 0 := by
          simp [arraylist_size, hnil]
        rw [hz]
        split <;> omega
    rw [set_current_line_rejected h s _ (Or.inl hc)]
    exact ⟨rfl, rfl⟩

/-- C3 amended at the inputs of the specification: height 10, prior selection
23, first visible row 30 give selection 33 with 40 records, and 31 with 32
records; with no records the state is unchanged. -/
theorem window_scrolled_keeps_page_offset_witness :
    (∃ (s' : State) (ev : List Event) (N : Nat),
      (∀ fuel : Nat, N ≤ fuel →
        fset_buffer_window_scrolled_cb example_host fuel (example_state 23 40)
          (example_window 30 10) = some (WEECHAT_RC_OK, s', ev))
      ∧ s'.fset_buffer_selected_line = 33)
    ∧ (∃ (s' : State) (ev : List Event) (N : Nat),
      (∀ fuel : Nat, N ≤ fuel →
        fset_buffer_window_scrolled_cb example_host fuel (example_state 23 32)
          (example_window 30 10) = some (WEECHAT_RC_OK, s', ev))
      ∧ s'.fset_buffer_selected_line = 31)
    ∧ (∃ N : Nat, ∀ fuel : Nat, N ≤ fuel →
        fset_buffer_window_scrolled_cb example_host fuel (example_state 0 0)
          (example_window 0 10) = some (WEECHAT_RC_OK, example_state 0 0, [])) := by
  refine ⟨?_, ?_, ?_⟩
  · obtain ⟨r, _, huniq, s', ev, N, hcb, _, _, hsel, _, _⟩ :=
      window_scrolled_keeps_page_offset example_host (example_state 23 40)
        (example_window 30 10) 30 10 rfl rfl (by decide)
    have hr : (33 : Int) = r := huniq 33 (by decide) (by decide) (by decide)
    subst hr
    exact ⟨s', ev, N, hcb, hsel (by decide) (by decide)⟩
  · obtain ⟨r, _, huniq, s', ev, N, hcb, _, _, _, hclamp, _⟩ :=
      window_scrolled_keeps_page_offset example_host (example_state 23 32)
        (example_window 30 10) 30 10 rfl rfl (by decide)
    have hr : (33 : Int) = r := huniq 33 (by decide) (by decide) (by decide)
    subst hr
    exact ⟨s', ev, N, hcb, hclamp (by decide) (by decide)⟩
  · obtain ⟨r, _, _, s', ev, N, hcb, _, _, _, _, hsame⟩ :=
      window_scrolled_keeps_page_offset example_host (example_state 0 0)
        (example_window 0 10) 0 10 rfl rfl (by decide)
    obtain ⟨hs, hev⟩ := hsame (Or.inr (by decide))
    subst hs
    subst hev
    exact ⟨N, hcb⟩

/-- C4 as stated fails: with 5 records, selection 0 and a window of the pane
that starts at row 10 and is 10 rows high, the callback leaves the selection
at 4, which is not in `[10, min (20, 5) - 1]`. -/
theorem window_scrolled_selection_in_viewport_counterexample :
    (example_state 0 5).fset_options ≠ []
    ∧ (example_window 10 10).buffer = (example_state 0 5).fset_buffer
    ∧ fset_buffer_get_window_info (example_window 10 10) = (10, 10)
    ∧ (fset_buffer_window_scrolled_cb example_host 3 (example_state 0 5)
        (example_window 10 10)).map (fun r => r.2.1.fset_buffer_selected_line) = some 4
    ∧ ¬ in_viewport_and_list 10 10 (arraylist_size (example_state 0 5).fset_options) 4 := by
  decide

/-- C4 amended: for a window of the pane whose height is at least 1 and whose
first visible row is a row of the record list (`0 <= start_row < len(records)`),
the scroll callback returns once enough iterations are allowed, and the
selection it leaves lies in
`[start_row, min (start_row + visible_rows, len(records)) - 1]`. -/
theorem window_scrolled_selection_in_viewport (h : Host) (s : State) (w : t_gui_window)
    (start_row visible_rows : Int)
    (hw : w.buffer = s.fset_buffer)
    (hinfo : fset_buffer_get_window_info w = (start_row, visible_rows))
    (hh : 1 ≤ visible_rows)
    (h0 : 0 ≤ start_row) (hlen : start_row < arraylist_size s.fset_options) :
    ∃ (s' : State) (ev : List Event) (N : Nat),
      (∀ fuel : Nat, N ≤ fuel →
        fset_buffer_window_scrolled_cb h fuel s w = some (WEECHAT_RC_OK, s', ev))
      ∧ in_viewport_and_list start_row visible_rows (arraylist_size s.fset_options)
          s'.fset_buffer_selected_line := by
  obtain ⟨r, hr1, hr2, _, hcb⟩ := window_scrolled_result h s w start_row visible_rows hw hinfo hh
  refine ⟨_, _, _, hcb, ?_⟩
  have hnlt : ¬ r < start_row := by omega
  by_cases hr : r ≥ arraylist_size s.fset_options
  · have hc : scrolled_clamp r start_row (arraylist_size s.fset_options)
        = arraylist_size s.fset_options - 1 := by
      simp [scrolled_clamp, hnlt, hr]
    rw [hc, set_current_line_accepted h s _ (by omega) (by omega)]
    simp only [in_viewport_and_list]
    omega
  · have hc : scrolled_clamp r start_row (arraylist_size s.fset_options) = r := by
      simp [scrolled_clamp, hnlt, hr]
    rw [hc, set_current_line_accepted h s _ (by omega) (by omega)]
    simp only [in_viewport_and_list]
    omega

/-- C4 amended at a concrete input: 40 records, selection 23, window rows 30-39. -/
theorem window_scrolled_selection_in_viewport_witness :
    ∃ (s' : State) (ev : List Event) (N : Nat),
      (∀ fuel : Nat, N ≤ fuel →
        fset_buffer_window_scrolled_cb example_host fuel (example_state 23 40)
          (example_window 30 10) = some (WEECHAT_RC_OK, s', ev))
      ∧ in_viewport_and_list 30 10 (arraylist_size (example_state 23 40).fset_options)
          s'.fset_buffer_selected_line :=
  window_scrolled_selection_in_viewport example_host (example_state 23 40)
    (example_window 30 10) 30 10 rfl rfl (by decide) (by decide) (by decide)

/-! ## Viewport correction -/

/-- C2: when a window showing the pane is found, `check_line_outside_window`
issues the scroll-up command of exactly `start_row - selected_index` rows if
the selection is above the window, and the scroll-down command of exactly
`selected_index - start_row - visible_rows + 1` rows if the selection is at or
below `start_row + visible_rows` (the height being a row count, not negative);
in both cases it is the only call made. -/
theorem check_line_outside_window_scroll_amount (s : State) (w : t_gui_window)
    (start_row visible_rows : Int)
    (hinfo : fset_buffer_get_window_info w = (start_row, visible_rows)) :
    (s.fset_buffer_selected_line < start_row →
      fset_buffer_check_line_outside_window s (some w) =
        [Event.command s.fset_buffer
          (window_scroll_command w.number "-" (start_row - s.fset_buffer_selected_line))])
    ∧ (0 ≤ visible_rows → start_row + visible_rows ≤ s.fset_buffer_selected_line →
      fset_buffer_check_line_outside_window s (some w) =
        [Event.command s.fset_buffer
          (window_scroll_command w.number "+"
            (s.fset_buffer_selected_line - start_row - visible_rows + 1))]) := by
  constructor
  · intro hlt
    simp [fset_buffer_check_line_outside_window, hinfo, hlt]
  · intro h0 hge
    have h1 : ¬ start_row > s.fset_buffer_selected_line := by omega
    have h2 : start_row ≤ s.fset_buffer_selected_line - visible_rows := by omega
    simp only [fset_buffer_check_line_outside_window, hinfo, h1, h2, or_true, if_true,
      if_false]

/-- C2 at the inputs of the specification: first row 5, height 10, selection 20
gives scroll-down 6; first row 5, selection 2 gives scroll-up 3. -/
theorem check_line_outside_window_scroll_amount_witness :
    (fset_buffer_check_line_outside_window (example_state 20 30) (some (example_window 5 10))
        = [Event.command (some 7) (window_scroll_command 1 "+" (20 - 5 - 10 + 1))]
      ∧ window_scroll_command 1 "+" (20 - 5 - 10 + 1) = "/window scroll -window 1 +6")
    ∧ (fset_buffer_check_line_outside_window (example_state 2 30) (some (example_window 5 10))
        = [Event.command (some 7) (window_scroll_command 1 "-" (5 - 2))]
      ∧ window_scroll_command 1 "-" (5 - 2) = "/window scroll -window 1 -3") :=
  ⟨⟨(check_line_outside_window_scroll_amount (example_state 20 30) (example_window 5 10)
        5 10 rfl).2 (by decide) (by decide), by decide⟩,
   ⟨(check_line_outside_window_scroll_amount (example_state 2 30) (example_window 5 10)
        5 10 rfl).1 (by decide), by decide⟩⟩

/-- C8 as stated fails: with the selection 7 inside a window that shows rows
5-14 of the pane, the call issues no scroll command at all. -/
theorem check_line_outside_window_one_command_counterexample :
    fset_buffer_get_window_info (example_window 5 10) = (5, 10)
    ∧ fset_buffer_check_line_outside_window (example_state 7 30)
        (some (example_window 5 10)) = []
    ∧ (issued_commands (fset_buffer_check_line_outside_window (example_state 7 30)
        (some (example_window 5 10)))).length ≠ 1 := by
  decide

/-- C8 amended: a call of `check_line_outside_window` that finds a window showing
the pane never issues more than one scroll command; it issues exactly one when
the selection is outside `[start_row, start_row + visible_rows)`, and none
(it makes no call at all) when the selection is inside. -/
theorem check_line_outside_window_one_command (s : State) (w : t_gui_window)
    (start_row visible_rows : Int)
    (hinfo : fset_buffer_get_window_info w = (start_row, visible_rows)) :
    (issued_commands (fset_buffer_check_line_outside_window s (some w))).length ≤ 1
    ∧ ((s.fset_buffer_selected_line < start_row
          ∨ start_row + visible_rows ≤ s.fset_buffer_selected_line) →
        (fset_buffer_check_line_outside_window s (some w)).length = 1
        ∧ (issued_commands (fset_buffer_check_line_outside_window s (some w))).length = 1)
    ∧ ((start_row ≤ s.fset_buffer_selected_line
          ∧ s.fset_buffer_selected_line < start_row + visible_rows) →
        fset_buffer_check_line_outside_window s (some w) = []) := by
  by_cases hout : start_row > s.fset_buffer_selected_line
      ∨ start_row ≤ s.fset_buffer_selected_line - visible_rows
  · have hev : ∃ c, fset_buffer_check_line_outside_window s (some w)
        = [Event.command s.fset_buffer c] := by
      simp only [fset_buffer_check_line_outside_window, hinfo, hout, if_true]
      exact ⟨_, rfl⟩
    obtain ⟨c, hc⟩ := hev
    rw [hc]
    refine ⟨by simp [issued_commands], fun _ => by simp [issued_commands], ?_⟩
    intro hin
    omega
  · have hev : fset_buffer_check_line_outside_window s (some w) = [] := by
      simp only [fset_buffer_check_line_outside_window, hinfo, hout, if_false]
    rw [hev]
    refine ⟨by simp [issued_commands], ?_, fun _ => rfl⟩
    intro h
    omega

/-- C8 amended at concrete inputs: selection 20 outside rows 5-14, one command;
selection 7 inside, none. -/
theorem check_line_outside_window_one_command_witness :
    ((fset_buffer_check_line_outside_window (example_state 20 30)
          (some (example_window 5 10))).length = 1
      ∧ (issued_commands (fset_buffer_check_line_outside_window (example_state 20 30)
          (some (example_window 5 10)))).length = 1)
    ∧ fset_buffer_check_line_outside_window (example_state 7 30)
        (some (example_window 5 10)) = [] :=
  ⟨(check_line_outside_window_one_command (example_state 20 30) (example_window 5 10)
      5 10 rfl).2.1 (Or.inr (by decide)),
   (check_line_outside_window_one_command (example_state 7 30) (example_window 5 10)
      5 10 rfl).2.2 (by decide)⟩

/-! ## The selection invariant -/

theorem arraylist_size_pos_iff (l : List t_fset_option) :
    0 < arraylist_size l ↔ l ≠ [] := by
  simp only [arraylist_size]
  constructor
  · intro hpos hnil
    simp [hnil] at hpos
  · intro hne
    exact_mod_cast List.length_pos.mpr hne

theorem refresh_state (h : Host) (s : State) (clear : Bool) :
    (fset_buffer_refresh h s clear).1 =
      if s.fset_buffer.isNone = true ∨ clear = false then s
      else { s with fset_buffer_selected_line :=
              if arraylist_size s.fset_options > 0 then 0 else -1 } := by
  unfold fset_buffer_refresh
  cases hb : s.fset_buffer.isNone <;> cases clear <;> simp

theorem set_current_line_state (h : Host) (s : State) (line : Int) :
    (fset_buffer_set_current_line h s line).1 =
      if 0 ≤ line ∧ line < arraylist_size s.fset_options
      then { s with fset_buffer_selected_line := line } else s := by
  unfold fset_buffer_set_current_line
  split <;> rfl

theorem open_state (h : Host) (s : State) (created : t_gui_buffer) :
    (fset_buffer_open h s created).1 =
      if s.fset_buffer.isNone = true then
        (if created.isNone = true then s
         else { s with fset_buffer := created, fset_buffer_selected_line := 0 })
      else s := by
  unfold fset_buffer_open
  cases hb : s.fset_buffer.isNone <;> cases hc : created.isNone <;> simp [hc]
  cases s
  simp_all

theorem refresh_clear_keeps (s : State) :
    selection_in_list_or_reset
      { s with fset_buffer_selected_line :=
          if arraylist_size s.fset_options > 0 then 0 else -1 } := by
  unfold selection_in_list_or_reset
  by_cases hnil : s.fset_options = []
  · left
    simp [hnil, arraylist_size]
  · right
    have hpos := (arraylist_size_pos_iff s.fset_options).mpr hnil
    simp [hpos]

theorem open_keeps (h : Host) (s : State) (created : t_gui_buffer)
    (hinv : selection_in_list_or_reset s) :
    selection_in_list_or_reset (fset_buffer_open h s created).1 := by
  rw [open_state]
  split
  · split
    · exact hinv
    · unfold selection_in_list_or_reset
      by_cases hnil : s.fset_options = []
      · left
        simp [hnil]
      · right
        have hpos := (arraylist_size_pos_iff s.fset_options).mpr hnil
        simpa using hpos
  · exact hinv

theorem close_keeps (s : State) :
    selection_in_list_or_reset (fset_buffer_close_cb s).2.1 := by
  simp [fset_buffer_close_cb, selection_in_list_or_reset]

theorem refresh_keeps (h : Host) (s : State) (clear : Bool)
    (hinv : selection_in_list_or_reset s) :
    selection_in_list_or_reset (fset_buffer_refresh h s clear).1 := by
  rw [refresh_state]
  split
  · exact hinv
  · exact refresh_clear_keeps s

theorem set_current_line_keeps (h : Host) (s : State) (line : Int)
    (hinv : selection_in_list_or_reset s) :
    selection_in_list_or_reset (fset_buffer_set_current_line h s line).1 := by
  rw [set_current_line_state]
  split
  · rename_i hok
    right
    exact hok
  · exact hinv

theorem window_scrolled_state (h : Host) (fuel : Nat) (s : State) (w : t_gui_window)
    (r : Int × State × List Event)
    (hr : fset_buffer_window_scrolled_cb h fuel s w = some r) :
    r.2.1 = s ∨ ∃ line : Int, r.2.1 = (fset_buffer_set_current_line h s line).1 := by
  unfold fset_buffer_window_scrolled_cb at hr
  split at hr
  · cases hr
    exact Or.inl rfl
  · dsimp only at hr
    split at hr
    · cases hr
    · cases hr
      exact Or.inr ⟨_, rfl⟩

theorem window_scrolled_keeps (h : Host) (fuel : Nat) (s : State) (w : t_gui_window)
    (r : Int × State × List Event)
    (hr : fset_buffer_window_scrolled_cb h fuel s w = some r)
    (hinv : selection_in_list_or_reset s) :
    selection_in_list_or_reset r.2.1 := by
  rcases window_scrolled_state h fuel s w r hr with hs | ⟨line, hs⟩
  · rw [hs]
    exact hinv
  · rw [hs]
    exact set_current_line_keeps h s line hinv

theorem input_keeps (h : Host) (s : State) (buffer : t_gui_buffer) (input_data : String)
    (reloaded : List t_fset_option) (hopen : s.fset_buffer.isSome = true)
    (hinv : selection_in_list_or_reset s) :
    selection_in_list_or_reset (fset_buffer_input_cb h s buffer input_data reloaded).2.1 := by
  unfold fset_buffer_input_cb
  split
  · exact close_keeps s
  · split
    · show selection_in_list_or_reset
        (fset_buffer_refresh h { s with fset_options := reloaded } true).1
      rw [refresh_state]
      have hsome : ¬ (s.fset_buffer.isNone = true) := by
        cases hb : s.fset_buffer <;> simp_all
      simp only [hsome, false_or, Bool.true_eq_false, if_false]
      exact refresh_clear_keeps { s with fset_options := reloaded }
    · split <;> exact hinv

theorem selection_lower_bound_step (h : Host) (free : Bool) (s t : State)
    (hstep : Step h free s t) (hinv : -1 ≤ s.fset_buffer_selected_line) :
    -1 ≤ t.fset_buffer_selected_line := by
  cases hstep with
  | pane_open created =>
    rw [open_state]
    split
    · split
      · exact hinv
      · simp
    · exact hinv
  | pane_close => simp [fset_buffer_close_cb]
  | refresh clear =>
    rw [refresh_state]
    split
    · exact hinv
    · show -1 ≤ (if arraylist_size s.fset_options > 0 then (0 : Int) else -1)
      split <;> simp
  | set_current_line line =>
    rw [set_current_line_state]
    split
    · rename_i hok
      show -1 ≤ line
      omega
    · exact hinv
  | window_scrolled w fuel r hr =>
    rcases window_scrolled_state h fuel s w r hr with hs | ⟨line, hs⟩
    · rw [hs]
      exact hinv
    · rw [hs, set_current_line_state]
      split
      · rename_i hok
        show -1 ≤ line
        omega
      · exact hinv
  | input input_data reloaded hopen =>
    unfold fset_buffer_input_cb
    split
    · simp [fset_buffer_close_cb]
    · split
      · show -1 ≤ (fset_buffer_refresh h { s with fset_options := reloaded }
            true).1.fset_buffer_selected_line
        rw [refresh_state]
        split
        · exact hinv
        · show -1 ≤ (if arraylist_size reloaded > 0 then (0 : Int) else -1)
          split <;> simp
      · split <;> exact hinv
  | replaced records hfree => exact hinv

theorem selection_kept_step (h : Host) (s t : State)
    (hstep : Step h false s t) (hinv : selection_in_list_or_reset s) :
    selection_in_list_or_reset t := by
  cases hstep with
  | pane_open created => exact open_keeps h s created hinv
  | pane_close => exact close_keeps s
  | refresh clear => exact refresh_keeps h s clear hinv
  | set_current_line line => exact set_current_line_keeps h s line hinv
  | window_scrolled w fuel r hr => exact window_scrolled_keeps h fuel s w r hr hinv
  | input input_data reloaded hopen =>
    exact input_keeps h s s.fset_buffer input_data reloaded hopen hinv
  | replaced records hfree => cases hfree

theorem selection_kept_reachable (h : Host) (s : State) (hs : Reachable h false s) :
    selection_in_list_or_reset s := by
  induction hs with
  | initial => exact Or.inl ⟨rfl, Or.inl rfl⟩
  | step s t _ hstep ih => exact selection_kept_step h s t hstep ih

theorem selection_lower_bound_reachable (h : Host) (free : Bool) (s : State)
    (hs : Reachable h free s) : -1 ≤ s.fset_buffer_selected_line := by
  induction hs with
  | initial => simp [State.initial]
  | step s t _ hstep ih => exact selection_lower_bound_step h free s t hstep ih

theorem example_run_reachable (free : Bool) :
    Reachable example_host free (example_state 2 3) := by
  have h1 : Reachable example_host free
      (fset_buffer_open example_host State.initial (some 7)).1 :=
    Reachable.step _ _ Reachable.initial (Step.pane_open _ _)
  have h2 : Reachable example_host free
      (fset_buffer_input_cb example_host
        (fset_buffer_open example_host State.initial (some 7)).1
        (fset_buffer_open example_host State.initial (some 7)).1.fset_buffer
        "$" (example_records 3)).2.1 :=
    Reachable.step _ _ h1 (Step.input _ "$" (example_records 3) (by decide))
  have h3 := Reachable.step _ _ h2 (Step.set_current_line _ 2)
  have he : (fset_buffer_set_current_line example_host
      (fset_buffer_input_cb example_host
        (fset_buffer_open example_host State.initial (some 7)).1
        (fset_buffer_open example_host State.initial (some 7)).1.fset_buffer
        "$" (example_records 3)).2.1 2).1 = example_state 2 3 := by decide
  rw [he] at h3
  exact h3

theorem example_cleared_reachable (free : Bool) :
    Reachable example_host free (example_state (-1) 0) := by
  have h1 : Reachable example_host free
      (fset_buffer_open example_host State.initial (some 7)).1 :=
    Reachable.step _ _ Reachable.initial (Step.pane_open _ _)
  have h2 := Reachable.step _ _ h1 (Step.refresh _ true)
  have he : (fset_buffer_refresh example_host
      (fset_buffer_open example_host State.initial (some 7)).1 true).1
        = example_state (-1) 0 := by decide
  rw [he] at h2
  exact h2

/-- C1 as stated fails: the state left by the close notification (reached in
one step from the initial state, with or without replacement of the record list
by the store) has selection 0 and no records, so `selected_index < len(records)`
is false and `selected_index == -1` does not hold for the empty list.  The
initial state and the state right after open are the same kind of state.  When
the store replaces the record list on its own, a selection 2 is left over one
record, and a selection -1 over three records. -/
theorem selection_invariant_counterexample :
    Reachable example_host true (fset_buffer_close_cb State.initial).2.1
    ∧ Reachable example_host false (fset_buffer_close_cb State.initial).2.1
    ∧ (fset_buffer_close_cb State.initial).2.1.fset_buffer_selected_line = 0
    ∧ (fset_buffer_close_cb State.initial).2.1.fset_options = []
    ∧ ¬ selection_invariant (fset_buffer_close_cb State.initial).2.1
    ∧ ¬ selection_invariant State.initial
    ∧ ¬ selection_invariant (fset_buffer_open example_host State.initial (some 7)).1
    ∧ (Reachable example_host true (example_state 2 1)
        ∧ ¬ selection_invariant (example_state 2 1)
        ∧ ¬ selection_in_list_or_reset (example_state 2 1))
    ∧ (Reachable example_host true (example_state (-1) 3)
        ∧ ¬ selection_invariant (example_state (-1) 3)
        ∧ ¬ selection_in_list_or_reset (example_state (-1) 3)) :=
  ⟨Reachable.step _ _ Reachable.initial (Step.pane_close _),
   Reachable.step _ _ Reachable.initial (Step.pane_close _),
   rfl, rfl, by decide, by decide, by decide,
   ⟨Reachable.step _ _ (example_run_reachable true)
      (Step.replaced (example_state 2 3) (example_records 1) rfl),
    by decide, by decide⟩,
   ⟨Reachable.step _ _ (example_cleared_reachable true)
      (Step.replaced (example_state (-1) 0) (example_records 3) rfl),
    by decide, by decide⟩⟩

/-- C1 amended: in every state reachable from the initial state through open,
the close notification, refresh(clear), set_current_line, on_window_scrolled and
input dispatch for the open pane, the record list being replaced only by the
reload of the input `$` (which runs the refresh with clear),
`-1 <= selected_index` holds, `selected_index < len(records)` holds unless the
list is empty and the selection is 0 (initial state, after open, after close),
and `selected_index == -1` implies that the list is empty.  When the store may
also replace the record list between operations, `-1 <= selected_index` still
holds in every reachable state. -/
theorem selection_kept_in_reachable_states (h : Host) :
    (∀ s : State, Reachable h false s →
      -1 ≤ s.fset_buffer_selected_line
      ∧ (s.fset_buffer_selected_line < arraylist_size s.fset_options
          ∨ (s.fset_options = [] ∧ s.fset_buffer_selected_line = 0))
      ∧ (s.fset_buffer_selected_line = -1 → s.fset_options = []))
    ∧ (∀ s : State, Reachable h true s → -1 ≤ s.fset_buffer_selected_line) := by
  constructor
  · intro s hs
    have hinv := selection_kept_reachable h s hs
    refine ⟨selection_lower_bound_reachable h false s hs, ?_, ?_⟩
    · rcases hinv with ⟨hnil, h0 | h1⟩ | ⟨_, hlt⟩
      · exact Or.inr ⟨hnil, h0⟩
      · left
        rw [h1, hnil]
        decide
      · exact Or.inl hlt
    · intro hsel
      rcases hinv with ⟨hnil, _⟩ | ⟨h0, _⟩
      · exact hnil
      · omega
  · intro s hs
    exact selection_lower_bound_reachable h true s hs

/-- C1 amended at a concrete run: open pane 7, reload three records with `$`,
move the selection to row 2. -/
theorem selection_kept_in_reachable_states_witness :
    Reachable example_host false (example_state 2 3)
    ∧ (-1 ≤ (example_state 2 3).fset_buffer_selected_line
      ∧ ((example_state 2 3).fset_buffer_selected_line
            < arraylist_size (example_state 2 3).fset_options
          ∨ ((example_state 2 3).fset_options = []
            ∧ (example_state 2 3).fset_buffer_selected_line = 0))
      ∧ ((example_state 2 3).fset_buffer_selected_line = -1
          → (example_state 2 3).fset_options = [])) :=
  ⟨example_run_reachable false,
   (selection_kept_in_reachable_states example_host).1 _ (example_run_reachable false)⟩

/-! ## Selection movement: the two claims -/

/-- C6: for every state and every new index outside `[0, len(records))`,
`set_current_line` leaves the state, and so the selection, unchanged and runs
the line renderer for no row: its trace is empty. -/
theorem set_current_line_out_of_range (h : Host) (s : State) (new_index : Int)
    (hout : new_index < 0 ∨ arraylist_size s.fset_options ≤ new_index) :
    (fset_buffer_set_current_line h s new_index).1 = s
    ∧ (fset_buffer_set_current_line h s new_index).1.fset_buffer_selected_line
        = s.fset_buffer_selected_line
    ∧ (fset_buffer_set_current_line h s new_index).2 = []
    ∧ rendered_rows (fset_buffer_set_current_line h s new_index).2 = [] := by
  rw [set_current_line_rejected h s new_index hout]
  exact ⟨rfl, rfl, rfl, rfl⟩

/-- C6 at concrete inputs: 5 records, selection 1, move to 5 and to -1. -/
theorem set_current_line_out_of_range_witness :
    ((fset_buffer_set_current_line example_host (example_state 1 5) 5).1 = example_state 1 5
      ∧ (fset_buffer_set_current_line example_host (example_state 1 5) 5).2 = [])
    ∧ ((fset_buffer_set_current_line example_host (example_state 1 5) (-1)).1
          = example_state 1 5
      ∧ (fset_buffer_set_current_line example_host (example_state 1 5) (-1)).2 = []) :=
  ⟨⟨(set_current_line_out_of_range example_host (example_state 1 5) 5
        (Or.inr (by decide))).1,
    (set_current_line_out_of_range example_host (example_state 1 5) 5
        (Or.inr (by decide))).2.2.1⟩,
   ⟨(set_current_line_out_of_range example_host (example_state 1 5) (-1)
        (Or.inl (by decide))).1,
    (set_current_line_out_of_range example_host (example_state 1 5) (-1)
        (Or.inl (by decide))).2.2.1⟩⟩

/-- C7: for every state and every new index in `[0, len(records))`,
`set_current_line` sets the selection to the new index, changes nothing else, and
runs the line renderer exactly twice: first for the old selected row, drawn
with the template of unselected rows unless it is the new row, then for the new
row, drawn with the template of the selected row.  When old and new are equal
the two runs are for that single row. -/
theorem set_current_line_renders_old_and_new (h : Host) (s : State) (new_index : Int)
    (h0 : 0 ≤ new_index) (h1 : new_index < arraylist_size s.fset_options) :
    (fset_buffer_set_current_line h s new_index).1
        = { s with fset_buffer_selected_line := new_index }
    ∧ (fset_buffer_set_current_line h s new_index).2 =
        [Event.display_line s.fset_buffer s.fset_buffer_selected_line
           (arraylist_get s.fset_options s.fset_buffer_selected_line)
           (decide (s.fset_buffer_selected_line = new_index))
           (h.string_eval_expression
             (if s.fset_buffer_selected_line = new_index
               then h.eval_format_option_current else h.format_option)
             (arraylist_get s.fset_options s.fset_buffer_selected_line)
             (extra_vars h (arraylist_get s.fset_options s.fset_buffer_selected_line)
               (decide (s.fset_buffer_selected_line = new_index)))),
         Event.display_line s.fset_buffer new_index
           (arraylist_get s.fset_options new_index) true
           (h.string_eval_expression h.eval_format_option_current
             (arraylist_get s.fset_options new_index)
             (extra_vars h (arraylist_get s.fset_options new_index) true))]
    ∧ (fset_buffer_set_current_line h s new_index).2.length = 2
    ∧ rendered_rows (fset_buffer_set_current_line h s new_index).2
        = [s.fset_buffer_selected_line, new_index]
    ∧ (s.fset_buffer_selected_line ≠ new_index →
        rendered_flags (fset_buffer_set_current_line h s new_index).2 = [false, true]
        ∧ (rendered_rows (fset_buffer_set_current_line h s new_index).2).dedup.length = 2)
    ∧ (s.fset_buffer_selected_line = new_index →
        rendered_flags (fset_buffer_set_current_line h s new_index).2 = [true, true]
        ∧ (rendered_rows (fset_buffer_set_current_line h s new_index).2).dedup
            = [new_index]) := by
  rw [set_current_line_accepted h s new_index h0 h1]
  refine ⟨rfl, ?_, ?_, ?_, ?_, ?_⟩
  · simp [fset_buffer_display_line]
  · simp [fset_buffer_display_line]
  · simp [fset_buffer_display_line, rendered_rows]
  · intro hne
    simp [fset_buffer_display_line, rendered_rows, rendered_flags, hne]
  · intro heq
    simp [fset_buffer_display_line, rendered_rows, rendered_flags, heq]

/-- C7 at concrete inputs: 5 records, selection 1; a move to row 3 renders rows
1 and 3, a move to row 1 renders row 1 twice. -/
theorem set_current_line_renders_old_and_new_witness :
    ((fset_buffer_set_current_line example_host (example_state 1 5) 3).1 = example_state 3 5
      ∧ (fset_buffer_set_current_line example_host (example_state 1 5) 3).2 =
          [Event.display_line (some 7) 1 (some { id := 1 }) false (some "n1"),
           Event.display_line (some 7) 3 (some { id := 3 }) true (some "s3")])
    ∧ rendered_rows (fset_buffer_set_current_line example_host (example_state 1 5) 1).2
        = [1, 1]
    ∧ (fset_buffer_set_current_line example_host (example_state 1 5) 1).2.length = 2 := by
  have ha := set_current_line_renders_old_and_new example_host (example_state 1 5) 3
    (by decide) (by decide)
  have hb := set_current_line_renders_old_and_new example_host (example_state 1 5) 1
    (by decide) (by decide)
  exact ⟨⟨ha.1, by decide⟩, hb.2.2.2.1, hb.2.2.1⟩

/-! ## Lifecycle and input: the two claims -/

/-- C9: the close notification is idempotent: from every state, handling it
once returns the success code and leaves no pane, selection 0 and no records;
handling it a second time returns the success code again and leaves that state
unchanged.  It makes no call to the host either time. -/
theorem close_cb_idempotent (s : State) :
    fset_buffer_close_cb s =
      (WEECHAT_RC_OK,
       { fset_buffer := none, fset_buffer_selected_line := 0, fset_options := [] }, [])
    ∧ fset_buffer_close_cb (fset_buffer_close_cb s).2.1 =
      (WEECHAT_RC_OK,
       { fset_buffer := none, fset_buffer_selected_line := 0, fset_options := [] }, [])
    ∧ (fset_buffer_close_cb (fset_buffer_close_cb s).2.1).2.1 = (fset_buffer_close_cb s).2.1 := by
  refine ⟨rfl, rfl, rfl⟩

theorem find_action_of_mem (key action : String) (hmem : (key, action) ∈ actions) :
    key ≠ "q" ∧ key ≠ "$" ∧ find_action actions key = some action := by
  simp only [actions, List.mem_cons, Prod.mk.injEq, List.mem_singleton] at hmem
  have hnil : (key, action) ∉ ([] : List (String × String)) := List.not_mem_nil _
  rcases hmem with ⟨rfl, rfl⟩ | ⟨rfl, rfl⟩ | ⟨rfl, rfl⟩ | ⟨rfl, rfl⟩ | ⟨rfl, rfl⟩
    | ⟨rfl, rfl⟩ | ⟨rfl, rfl⟩ | hmem
  all_goals first
    | exact absurd hmem hnil
    | exact ⟨by decide, by decide, by decide⟩

theorem find_action_none (l : List (String × String)) (input_data : String)
    (hno : ∀ key action : String, (key, action) ∈ l → input_data ≠ key) :
    find_action l input_data = none := by
  induction l with
  | nil => rfl
  | cons p rest ih =>
    obtain ⟨key, action⟩ := p
    have hne : input_data ≠ key := hno key action (List.mem_cons_self _ _)
    simp only [find_action, hne, if_false]
    exact ih (fun k a hm => hno k a (List.mem_cons_of_mem _ hm))

/-- C5: for every input text the dispatch returns the success code and performs
the effect of the first matching rule: `q` closes the pane; `$` reloads the
record set and then runs the refresh with clear; a text equal to a key of the
table t, +, -, r, u, s, a issues the command `/fset` followed by toggle,
increase, decrease, reset, unset, set, append for that key and nothing else;
every other text is handed unchanged to the filter entry of the store, and no
command is issued. -/
theorem input_cb_dispatch (h : Host) (s : State) (buffer : t_gui_buffer)
    (input_data : String) (reloaded : List t_fset_option) :
    (fset_buffer_input_cb h s buffer input_data reloaded).1 = WEECHAT_RC_OK
    ∧ actions = [("t", "toggle"), ("+", "increase"), ("-", "decrease"), ("r", "reset"),
        ("u", "unset"), ("s", "set"), ("a", "append")]
    ∧ (input_data = "q" →
        fset_buffer_input_cb h s buffer input_data reloaded =
          (WEECHAT_RC_OK, (fset_buffer_close_cb s).2.1, [Event.buffer_close buffer]))
    ∧ (input_data = "$" →
        fset_buffer_input_cb h s buffer input_data reloaded =
          (WEECHAT_RC_OK,
           (fset_buffer_refresh h { s with fset_options := reloaded } true).1,
           Event.get_options
             :: (fset_buffer_refresh h { s with fset_options := reloaded } true).2))
    ∧ (∀ key action : String, (key, action) ∈ actions → input_data = key →
        fset_buffer_input_cb h s buffer input_data reloaded =
          (WEECHAT_RC_OK, s, [Event.command buffer ("/fset " ++ action)]))
    ∧ (input_data ≠ "q" → input_data ≠ "$" →
        (∀ key action : String, (key, action) ∈ actions → input_data ≠ key) →
        fset_buffer_input_cb h s buffer input_data reloaded =
          (WEECHAT_RC_OK, s, [Event.filter_options input_data])
        ∧ issued_commands (fset_buffer_input_cb h s buffer input_data reloaded).2.2 = []) := by
  refine ⟨?_, rfl, ?_, ?_, ?_, ?_⟩
  · unfold fset_buffer_input_cb
    split
    · rfl
    · split
      · rfl
      · split <;> rfl
  · intro hq
    simp [fset_buffer_input_cb, hq]
  · intro hd
    have hnq : input_data ≠ "q" := by
      rw [hd]
      decide
    simp [fset_buffer_input_cb, hnq, hd]
  · intro key action hmem hkey
    obtain ⟨hnq, hnd, hfind⟩ := find_action_of_mem key action hmem
    subst hkey
    simp [fset_buffer_input_cb, hnq, hnd, hfind]
  · intro hnq hnd hno
    have hfind := find_action_none actions input_data hno
    simp [fset_buffer_input_cb, hnq, hnd, hfind, issued_commands]

/-- C5 at the inputs of the specification: `q` closes, `$` reloads and
refreshes, `t` issues the toggle command, `abc` goes to the filter. -/
theorem input_cb_dispatch_witness :
    fset_buffer_input_cb example_host (example_state 1 3) (some 7) "q" []
        = (WEECHAT_RC_OK, (fset_buffer_close_cb (example_state 1 3)).2.1,
            [Event.buffer_close (some 7)])
    ∧ fset_buffer_input_cb example_host (example_state 1 3) (some 7) "$" (example_records 2)
        = (WEECHAT_RC_OK,
           (fset_buffer_refresh example_host
             { example_state 1 3 with fset_options := example_records 2 } true).1,
           Event.get_options
             :: (fset_buffer_refresh example_host
                  { example_state 1 3 with fset_options := example_records 2 } true).2)
    ∧ fset_buffer_input_cb example_host (example_state 1 3) (some 7) "t" []
        = (WEECHAT_RC_OK, example_state 1 3,
            [Event.command (some 7) ("/fset " ++ "toggle")])
    ∧ (fset_buffer_input_cb example_host (example_state 1 3) (some 7) "abc" []
        = (WEECHAT_RC_OK, example_state 1 3, [Event.filter_options "abc"])
      ∧ issued_commands
          (fset_buffer_input_cb example_host (example_state 1 3) (some 7) "abc" []).2.2
            = []) :=
  ⟨(input_cb_dispatch example_host (example_state 1 3) (some 7) "q" []).2.2.1 rfl,
   (input_cb_dispatch example_host (example_state 1 3) (some 7) "$"
      (example_records 2)).2.2.2.1 rfl,
   (input_cb_dispatch example_host (example_state 1 3) (some 7) "t" []).2.2.2.2.1
      "t" "toggle" (by decide) rfl,
   (input_cb_dispatch example_host (example_state 1 3) (some 7) "abc" []).2.2.2.2.2
      (by decide) (by decide)
      (by
        intro key action hmem
        simp only [actions, List.mem_cons, Prod.mk.injEq, List.mem_singleton] at hmem
        have hnil : (key, action) ∉ ([] : List (String × String)) := List.not_mem_nil _
        rcases hmem with ⟨rfl, _⟩ | ⟨rfl, _⟩ | ⟨rfl, _⟩ | ⟨rfl, _⟩ | ⟨rfl, _⟩
          | ⟨rfl, _⟩ | ⟨rfl, _⟩ | hmem
        all_goals first
          | exact absurd hmem hnil
          | decide)⟩

end Fset
